import Mathlib

/-
  Verification development for the execution core of a Cairo virtual
  machine written in TypeScript (cairo-vm-ts).

  Shallow embedding of:
    - src/primitives/felt.ts          (class Felt)
    - src/memory/memory.ts            (class Memory)
    - src/vm/instruction.ts           (class Instruction, decodeInstruction)
    - src/vm/virtualMachine.ts        (class VirtualMachine: step,
                                       computeOperands, deduceOp0, deduceOp1,
                                       computeRes, deduceDst, opcodeAssertion)

  Parts of the repository referenced by the core but not present among the
  sources (primitives/relocatable.ts, primitives/uint.ts,
  run-context computeAddress / computeOp1Address, memory/memoryManager.ts)
  are modelled from the specification; each such definition carries a doc
  comment starting with: Modelled from the spec.

  Machine integers are modelled as Nat / Int with explicit reductions.
  JavaScript exceptions (throw) are modelled as the error branch of Except.
-/

namespace CairoVM

/-- The error taxonomy of the core.  Each constructor corresponds to one
error value of the source (result/..., thrown errors, or a JavaScript
runtime TypeError). -/
inductive Err where
  | segmentError          -- SegmentError (insert beyond numSegments)
  | writeOnceError        -- WriteOnceError (insert over a filled cell)
  | unknownAddressError   -- UnknownAddressError (get of an empty cell)
  | feltError             -- FeltError thrown by the Felt constructor
  | numberConversionError -- NumberConversionError (toUint64 overflow)
  | highBitSetError       -- HighBitSetError
  | invalidOp1Src         -- InvalidOp1Src
  | invalidResultLogic    -- InvalidResultLogic
  | invalidPcUpdate       -- InvalidPcUpdate
  | invalidApUpdate       -- InvalidApUpdate
  | invalidOpcode         -- InvalidOpcode
  | endOfInstructionsError -- EndOfInstructionsError
  | instructionError      -- InstructionError (fetched word is not a Felt)
  | notImplemented        -- the thrown Error(TODO: Not Implemented) in step
  | offsetUnderflow       -- pointer arithmetic producing a negative offset
  | segmentMismatch       -- subtraction of pointers of distinct segments
  | typeMismatch          -- illegal word-variant combination
  | divisionByZero        -- field division by zero
  | op1ImmediateOffsetError -- op1Src = Imm with offOp1 different from 1
  | op0Undefined          -- op1Src = Op0 with no value at op0Addr
  | unconstrainedResError -- UnconstrainedResError
  | diffAssertValuesError -- DiffAssertValuesError
  | invalidOperand0       -- InvalidOperand0
  | invalidDstOperand     -- InvalidDstOperand
  | jsTypeError           -- JavaScript TypeError: method call on undefined
deriving DecidableEq, Repr

/-- The prime of the field: 2^251 + 17 * 2^192 + 1
(hex 0x800000000000011000000000000000000000000000000000000000000000001),
Felt.PRIME in src/primitives/felt.ts. -/
def PRIME : ℕ :=
  0x800000000000011000000000000000000000000000000000000000000000001

/-- A field element as stored by class Felt of src/primitives/felt.ts:
the underlying bigint.  The constructor enforces its range (see Felt.new);
the class itself never reduces. -/
structure Felt where
  inner : ℕ
deriving DecidableEq, Repr

/-- The Felt constructor (src/primitives/felt.ts lines 12-19).  The source
throws FeltError when the argument is negative or strictly greater than
Felt.PRIME; the throw is modelled as the error branch.  Note the source
comparison is strict, so the argument PRIME itself is accepted unreduced. -/
def Felt.new (i : ℤ) : Except Err Felt :=
  if i < 0 ∨ (PRIME : ℤ) < i then .error .feltError else .ok ⟨i.toNat⟩

/-- Felt.add: (this.inner + other.inner) % PRIME. -/
def Felt.add (a b : Felt) : Felt := ⟨(a.inner + b.inner) % PRIME⟩

/-- Felt.sub: this.inner - other.inner, adding PRIME when negative. -/
def Felt.sub (a b : Felt) : Felt :=
  if b.inner ≤ a.inner then ⟨a.inner - b.inner⟩
  else ⟨a.inner + PRIME - b.inner⟩

/-- Modelled from the spec: field multiplication (the spec section 3 allows
Field x Field with field arithmetic; the Felt class sources in the
repository do not include mul, it lives with the word operations of
primitives/relocatable.ts which is absent). -/
def Felt.mul (a b : Felt) : Felt := ⟨(a.inner * b.inner) % PRIME⟩

/-- Modelled from the spec: the modular inverse used by field division
(div = mul by modular inverse, spec section 2 item 1).  Computed through
the extended gcd; its exact value is irrelevant to the claims settled
here, which exercise only the error branches of division. -/
def Felt.inv (a : Felt) : Felt :=
  ⟨(((Nat.gcdA a.inner PRIME) % (PRIME : ℤ)).toNat) % PRIME⟩

/-- Felt.eq: value comparison of the underlying bigints. -/
def Felt.eqb (a b : Felt) : Bool := a.inner == b.inner

/-- Felt.toUint64.  Modelled from the spec for the missing
primitives/uint.ts: to_small_uint succeeds iff the element fits in
64 bits (spec section 4.1). -/
def Felt.toUint64 (a : Felt) : Except Err ℕ :=
  if a.inner < 2 ^ 64 then .ok a.inner else .error .numberConversionError

/-- A segmented address (segment index, offset), class Relocatable of the
absent primitives/relocatable.ts, as specified in section 3. -/
structure Relocatable where
  seg : ℕ
  off : ℕ
deriving DecidableEq, Repr

/-- A memory word: either a field element or a relocatable
(MaybeRelocatable). -/
inductive MaybeRelocatable where
  | felt (f : Felt)
  | rel (r : Relocatable)
deriving DecidableEq, Repr

/-- Modelled from the spec: word addition (section 3).
Field + Field is field arithmetic; Relocatable + Field is offset
arithmetic on the same segment; Field + Relocatable and
Relocatable + Relocatable are illegal and yield an error. -/
def MaybeRelocatable.add : MaybeRelocatable → MaybeRelocatable →
    Except Err MaybeRelocatable
  | .felt a, .felt b => .ok (.felt (a.add b))
  | .rel r, .felt f => .ok (.rel ⟨r.seg, r.off + f.inner⟩)
  | .felt _, .rel _ => .error .typeMismatch
  | .rel _, .rel _ => .error .typeMismatch

/-- Modelled from the spec: word subtraction (section 3).
Field - Field is field arithmetic; Relocatable - Field fails on a negative
resulting offset; Relocatable - Relocatable requires the same segment and
gives the field element of the offset difference. -/
def MaybeRelocatable.sub : MaybeRelocatable → MaybeRelocatable →
    Except Err MaybeRelocatable
  | .felt a, .felt b => .ok (.felt (a.sub b))
  | .rel r, .felt f =>
      if f.inner ≤ r.off then .ok (.rel ⟨r.seg, r.off - f.inner⟩)
      else .error .offsetUnderflow
  | .felt _, .rel _ => .error .typeMismatch
  | .rel a, .rel b =>
      if a.seg = b.seg then
        if b.off ≤ a.off then .ok (.felt ⟨a.off - b.off⟩)
        else .error .offsetUnderflow
      else .error .segmentMismatch

/-- Modelled from the spec: word multiplication (section 3).
Only Field x Field is legal. -/
def MaybeRelocatable.mul : MaybeRelocatable → MaybeRelocatable →
    Except Err MaybeRelocatable
  | .felt a, .felt b => .ok (.felt (a.mul b))
  | _, _ => .error .typeMismatch

/-- Modelled from the spec: word division (sections 3 and 4.2).
Only Field / Field is legal; a zero divisor yields DivisionByZero,
otherwise multiplication by the modular inverse. -/
def MaybeRelocatable.div : MaybeRelocatable → MaybeRelocatable →
    Except Err MaybeRelocatable
  | .felt a, .felt b =>
      if b.inner % PRIME = 0 then .error .divisionByZero
      else .ok (.felt (a.mul b.inv))
  | _, _ => .error .typeMismatch

/-- The memory of src/memory/memory.ts: a partial map from addresses to
words plus the number of allocated segments.  The source keeps the map in
a JavaScript Map whose keys are Relocatable objects; following the spec
(section 9, memory identity) keys are compared here as logical
(segment, offset) pairs, which coincides with the source behaviour
whenever the very same address object is reused. -/
structure Memory where
  data : List (Relocatable × MaybeRelocatable)
  numSegments : ℕ
deriving DecidableEq, Repr

/-- The lookup underlying Map.get of the data map. -/
def Memory.lookup (m : Memory) (a : Relocatable) : Option MaybeRelocatable :=
  (m.data.find? (fun p => p.1 == a)).map (fun p => p.2)

/-- Memory.insert (src/memory/memory.ts lines 30-41): SegmentError when the
segment index is not below numSegments, WriteOnceError when the cell is
already filled (with any value, equal or not), otherwise stores. -/
def Memory.insert (m : Memory) (a : Relocatable) (v : MaybeRelocatable) :
    Except Err Memory :=
  if m.numSegments ≤ a.seg then .error .segmentError
  else if (m.lookup a).isSome then .error .writeOnceError
  else .ok ⟨(a, v) :: m.data, m.numSegments⟩

/-- Memory.get (src/memory/memory.ts lines 43-49): the stored word, or
UnknownAddressError when the cell is empty. -/
def Memory.get (m : Memory) (a : Relocatable) :
    Except Err MaybeRelocatable :=
  match m.lookup a with
  | none => .error .unknownAddressError
  | some v => .ok v

/-- Modelled from the spec: the memory accessor the virtual machine uses
through MemorySegmentManager (memory/memoryManager.ts is absent from the
sources).  Per spec section 4.3, get returns the stored word or None; the
call sites in computeOperands and step compare the result against
undefined. -/
def Memory.getOpt (m : Memory) (a : Relocatable) : Option MaybeRelocatable :=
  m.lookup a

/-- The mutation performed by a call to insert whose Result is discarded:
the map changes only when the insert succeeds, and the returned Result is
dropped by the caller (computeOperands lines 124, 143, 173). -/
def Memory.insertDrop (m : Memory) (a : Relocatable)
    (v : MaybeRelocatable) : Memory :=
  match m.insert a v with
  | .ok m1 => m1
  | .error _ => m

/-- RegisterFlag of src/vm/instruction.ts: 0 = AP, 1 = FP. -/
inductive RegisterFlag where
  | AP  -- 0
  | FP  -- 1
deriving DecidableEq, Repr

/-- Op1Src of src/vm/instruction.ts: 0 = Op0, 1 = Imm, 2 = FP, 4 = AP. -/
inductive Op1Src where
  | Op0  -- 0
  | Imm  -- 1
  | FP   -- 2
  | AP   -- 4
deriving DecidableEq, Repr

/-- ResLogic of src/vm/instruction.ts:
0 = Op1, 1 = Add, 2 = Mul, 3 = Unconstrained. -/
inductive ResLogic where
  | Op1            -- 0
  | Add            -- 1
  | Mul            -- 2
  | Unconstrained  -- 3
deriving DecidableEq, Repr

/-- PcUpdate of src/vm/instruction.ts:
0 = Regular, 1 = Jump, 2 = JumpRel, 4 = Jnz. -/
inductive PcUpdate where
  | Regular  -- 0
  | Jump     -- 1
  | JumpRel  -- 2
  | Jnz      -- 4
deriving DecidableEq, Repr

/-- ApUpdate of src/vm/instruction.ts:
0 = Regular, 1 = Add, 2 = Add1, 3 = Add2. -/
inductive ApUpdate where
  | Regular  -- 0
  | Add      -- 1
  | Add1     -- 2
  | Add2     -- 3
deriving DecidableEq, Repr

/-- FpUpdate of src/vm/instruction.ts:
0 = Regular, 1 = ApPlus2, 2 = Dst. -/
inductive FpUpdate where
  | Regular  -- 0
  | ApPlus2  -- 1
  | Dst      -- 2
deriving DecidableEq, Repr

/-- Opcode of src/vm/instruction.ts:
0 = NoOp, 1 = Call, 2 = Ret, 4 = AssertEq. -/
inductive Opcode where
  | NoOp      -- 0
  | Call      -- 1
  | Ret       -- 2
  | AssertEq  -- 4
deriving DecidableEq, Repr

/-- The decoded instruction, class Instruction of src/vm/instruction.ts.
Offsets are the signed 16-bit values obtained from the biased encoding. -/
structure Instruction where
  offDst : ℤ
  offOp0 : ℤ
  offOp1 : ℤ
  dstReg : RegisterFlag
  op0Reg : RegisterFlag
  op1Src : Op1Src
  resLogic : ResLogic
  pcUpdate : PcUpdate
  apUpdate : ApUpdate
  fpUpdate : FpUpdate
  opcode : Opcode
deriving DecidableEq, Repr

/-- Modelled from the spec: SignedInteger16.fromBiased of the absent
primitives/int.ts.  Per spec section 4.4, from_biased(u) = u - 2^15.
The argument is already masked to 16 bits at every call site, so the
source error branch is unreachable and the function is total here. -/
def fromBiased (u : ℕ) : ℤ := (u : ℤ) - 2 ^ 15

/-- The op1Src switch of decodeInstruction
(switch on (flags & 0x1c) >> 2). -/
def decodeOp1Src (n : ℕ) : Except Err Op1Src :=
  match n with
  | 0 => .ok .Op0
  | 1 => .ok .Imm
  | 2 => .ok .FP
  | 4 => .ok .AP
  | _ => .error .invalidOp1Src

/-- The pcUpdate switch of decodeInstruction
(switch on (flags & 0x0380) >> 7). -/
def decodePcUpdate (n : ℕ) : Except Err PcUpdate :=
  match n with
  | 0 => .ok .Regular
  | 1 => .ok .Jump
  | 2 => .ok .JumpRel
  | 4 => .ok .Jnz
  | _ => .error .invalidPcUpdate

/-- The resLogic switch of decodeInstruction
(switch on (flags & 0x60) >> 5): 0 becomes Unconstrained when the already
decoded pcUpdate is Jnz, and Op1 otherwise. -/
def decodeResLogic (n : ℕ) (pcUpdate : PcUpdate) : Except Err ResLogic :=
  match n with
  | 0 => if pcUpdate = .Jnz then .ok .Unconstrained else .ok .Op1
  | 1 => .ok .Add
  | 2 => .ok .Mul
  | _ => .error .invalidResultLogic

/-- The opcode switch of decodeInstruction
(switch on (flags & 0x7000) >> 12). -/
def decodeOpcode (n : ℕ) : Except Err Opcode :=
  match n with
  | 0 => .ok .NoOp
  | 1 => .ok .Call
  | 2 => .ok .Ret
  | 4 => .ok .AssertEq
  | _ => .error .invalidOpcode

/-- The apUpdate switch of decodeInstruction
(switch on (flags & 0x0c00) >> 10): 0 becomes Add2 when the already
decoded opcode is Call, and Regular otherwise. -/
def decodeApUpdate (n : ℕ) (opcode : Opcode) : Except Err ApUpdate :=
  match n with
  | 0 => if opcode = .Call then .ok .Add2 else .ok .Regular
  | 1 => .ok .Add
  | 2 => .ok .Add1
  | _ => .error .invalidApUpdate

/-- The fpUpdate derivation of decodeInstruction:
Call yields ApPlus2, Ret yields Dst, anything else Regular. -/
def fpUpdateFromOpcode (o : Opcode) : FpUpdate :=
  match o with
  | .Call => .ApPlus2
  | .Ret => .Dst
  | _ => .Regular

/-- Instruction.decodeInstruction (src/vm/instruction.ts lines 154-402).
Bit extraction follows the source mask-and-shift pairs, written with
division and remainder: (x & 0xffff) is x % 2^16, a shift right by k is
division by 2^k, and ((flags & m) >> k) with m = (2^j - 1) << k is
(flags / 2^k) % 2^j.  flags holds the bits from 48 up
(two 16-bit shifts after the first, as in the source). -/
def decodeInstruction (e : ℕ) : Except Err Instruction :=
  -- (highBit & encodedInstruction) !== 0n, highBit = 1n << 63n
  if e / 2 ^ 63 % 2 ≠ 0 then .error .highBitSetError
  else
    let offDst := fromBiased (e % 2 ^ 16)
    let offOp0 := fromBiased (e / 2 ^ 16 % 2 ^ 16)
    let offOp1 := fromBiased (e / 2 ^ 32 % 2 ^ 16)
    let flags := e / 2 ^ 48
    -- (flags & 0x01) >> 0
    let dstReg : RegisterFlag := if flags % 2 = 0 then .AP else .FP
    -- (flags & 0x02) >> 1
    let op0Reg : RegisterFlag := if flags / 2 % 2 = 0 then .AP else .FP
    -- (flags & 0x1c) >> 2
    match decodeOp1Src (flags / 2 ^ 2 % 2 ^ 3) with
    | .error err => .error err
    | .ok op1Src =>
    -- (flags & 0x0380) >> 7
    match decodePcUpdate (flags / 2 ^ 7 % 2 ^ 3) with
    | .error err => .error err
    | .ok pcUpdate =>
    -- (flags & 0x60) >> 5
    match decodeResLogic (flags / 2 ^ 5 % 2 ^ 2) pcUpdate with
    | .error err => .error err
    | .ok resLogic =>
    -- (flags & 0x7000) >> 12
    match decodeOpcode (flags / 2 ^ 12 % 2 ^ 3) with
    | .error err => .error err
    | .ok opcode =>
    -- (flags & 0x0c00) >> 10
    match decodeApUpdate (flags / 2 ^ 10 % 2 ^ 2) opcode with
    | .error err => .error err
    | .ok apUpdate =>
      .ok ⟨offDst, offOp0, offOp1, dstReg, op0Reg, op1Src, resLogic,
           pcUpdate, apUpdate, fpUpdateFromOpcode opcode, opcode⟩

/-- Instruction.size (src/vm/instruction.ts lines 404-409):
2 when op1Src is Imm, else 1. -/
def Instruction.size (i : Instruction) : ℕ :=
  if i.op1Src = .Imm then 2 else 1

/-- The three registers of class RunContext
(src/run-context/runContext.ts). -/
structure RunContext where
  pc : Relocatable
  ap : Relocatable
  fp : Relocatable
deriving DecidableEq, Repr

/-- Base plus a signed 16-bit offset: add the absolute value when the
offset is non-negative, subtract it (failing on underflow) when negative.
This is the split performed by computeDstAddress of
src/run-context/runContext.ts on its base register. -/
def Relocatable.applyOffset (base : Relocatable) (off : ℤ) :
    Except Err Relocatable :=
  if off < 0 then
    if off.natAbs ≤ base.off then .ok ⟨base.seg, base.off - off.natAbs⟩
    else .error .offsetUnderflow
  else .ok ⟨base.seg, base.off + off.toNat⟩

/-- Modelled from the spec: RunContext.computeAddress used by
computeOperands for the dst and op0 addresses (spec section 4.4: base
plus or minus the absolute offset, base selected by the register flag).
The run-context source present here has only the specialised
computeDstAddress, whose register dispatch and sign handling this
follows. -/
def RunContext.computeAddress (ctx : RunContext) (reg : RegisterFlag)
    (off : ℤ) : Except Err Relocatable :=
  match reg with
  | .AP => ctx.ap.applyOffset off
  | .FP => ctx.fp.applyOffset off

/-- Modelled from the spec: RunContext.computeOp1Address
(spec section 4.6 step 2).  Op0 uses the word read at op0Addr as base,
which must be present and a Relocatable; Imm uses pc and requires
offOp1 = 1; FP and AP use the corresponding register. -/
def RunContext.computeOp1Address (ctx : RunContext) (src : Op1Src)
    (off : ℤ) (op0 : Option MaybeRelocatable) : Except Err Relocatable :=
  match src with
  | .Op0 =>
    match op0 with
    | some (.rel r) => r.applyOffset off
    | some (.felt _) => .error .typeMismatch
    | none => .error .op0Undefined
  | .Imm =>
    if off = 1 then ctx.pc.applyOffset off
    else .error .op1ImmediateOffsetError
  | .FP => ctx.fp.applyOffset off
  | .AP => ctx.ap.applyOffset off

/-- The Operands quadruple returned by computeOperands; each component is
MaybeRelocatable or undefined. -/
structure Operands where
  op0 : Option MaybeRelocatable
  op1 : Option MaybeRelocatable
  res : Option MaybeRelocatable
  dst : Option MaybeRelocatable
deriving DecidableEq, Repr

/-- VirtualMachine.deduceOp0 (vm source lines 191-234).  Call: op0 is
pc + instruction size (pc.add can only extend the offset, modelled
total).  AssertEq with Add: dst - op1 when both are defined, propagating
subtraction errors; AssertEq with Mul: dst / op1 when both are defined,
but ANY division error is turned into a successful (undefined, undefined)
(the source returns value [undefined, undefined] with no error whenever
dst.div(op1) reports one).  The missing break after the Add arm of the
source switch falls into the Mul arm with the same guard, which then
fails, so the fallthrough is behaviour-preserving.  Everything else gives
(undefined, undefined). -/
def deduceOp0 (ctx : RunContext) (instruction : Instruction)
    (dst op1 : Option MaybeRelocatable) :
    Except Err (Option MaybeRelocatable × Option MaybeRelocatable) :=
  match instruction.opcode with
  | .Call =>
      .ok (some (.rel ⟨ctx.pc.seg, ctx.pc.off + instruction.size⟩), none)
  | .AssertEq =>
    match instruction.resLogic with
    | .Add =>
      match dst, op1 with
      | some d, some o =>
        match d.sub o with
        | .error err => .error err
        | .ok v => .ok (some v, some d)
      | _, _ => .ok (none, none)
    | .Mul =>
      match dst, op1 with
      | some d, some o =>
        match d.div o with
        | .error _ => .ok (none, none)
        | .ok v => .ok (some v, some d)
      | _, _ => .ok (none, none)
    | _ => .ok (none, none)
  | _ => .ok (none, none)

/-- VirtualMachine.deduceOp1 (vm source lines 236-274).  Only AssertEq
deduces: Op1 gives (dst, dst) as options (both undefined when dst is);
Add gives dst - op0 when both defined, propagating subtraction errors;
Mul gives dst / op0 when both defined, turning ANY division error into a
successful (undefined, undefined).  Everything else gives
(undefined, undefined). -/
def deduceOp1 (instruction : Instruction)
    (dst op0 : Option MaybeRelocatable) :
    Except Err (Option MaybeRelocatable × Option MaybeRelocatable) :=
  match instruction.opcode with
  | .AssertEq =>
    match instruction.resLogic with
    | .Op1 => .ok (dst, dst)
    | .Add =>
      match dst, op0 with
      | some d, some o =>
        match d.sub o with
        | .error err => .error err
        | .ok v => .ok (some v, some d)
      | _, _ => .ok (none, none)
    | .Mul =>
      match dst, op0 with
      | some d, some o =>
        match d.div o with
        | .error _ => .ok (none, none)
        | .ok v => .ok (some v, some d)
      | _, _ => .ok (none, none)
    | .Unconstrained => .ok (none, none)
  | _ => .ok (none, none)

/-- VirtualMachine.computeRes (vm source lines 278-293).  The source
declares both operands as MaybeRelocatable, but its only caller casts
possibly-undefined values into the parameters (op0 as MaybeRelocatable),
so the operands are modelled as options here.  Op1 returns op1 as is
(possibly undefined); Unconstrained returns undefined; Add and Mul call
the add / mul method of op0, which in JavaScript throws a TypeError when
an operand is undefined - modelled as the jsTypeError error. -/
def computeRes (instruction : Instruction)
    (op0 op1 : Option MaybeRelocatable) :
    Except Err (Option MaybeRelocatable) :=
  match instruction.resLogic with
  | .Op1 => .ok op1
  | .Add =>
    match op0, op1 with
    | some a, some b =>
      match a.add b with
      | .error err => .error err
      | .ok v => .ok (some v)
    | _, _ => .error .jsTypeError
  | .Mul =>
    match op0, op1 with
    | some a, some b =>
      match a.mul b with
      | .error err => .error err
      | .ok v => .ok (some v)
    | _, _ => .error .jsTypeError
  | .Unconstrained => .ok none

/-- VirtualMachine.deduceDst (vm source lines 297-310): AssertEq gives
res (possibly undefined), Call gives the fp register, anything else
undefined. -/
def deduceDst (ctx : RunContext) (instruction : Instruction)
    (res : Option MaybeRelocatable) : Except Err (Option MaybeRelocatable) :=
  match instruction.opcode with
  | .AssertEq => .ok res
  | .Call => .ok (some (.rel ctx.fp))
  | _ => .ok none

/-- VirtualMachine.computeOperands (vm source lines 74-187).  The control
flow of the source is kept: compute the three addresses (each failing
early), read the three cells, run the deduction blocks in order, and
return the quadruple together with the memory as mutated by the
write-backs.  Two source behaviours are preserved exactly: the local
variables op0 and op1 are never reassigned after their initial read (a
deduced op0 or op1 reaches memory but not the returned quadruple), and
every memory.insert has its Result dropped (insertDrop). -/
def op0DeductionBlock (ctx : RunContext) (instruction : Instruction)
    (mem : Memory) (op0Addr : Relocatable)
    (dst op0 op1 : Option MaybeRelocatable) :
    Except Err (Option MaybeRelocatable × Memory) :=
  -- if (op0 === undefined) { deduce it, insert it, res = deducedRes }
  match op0 with
  | some _ => .ok (none, mem)
  | none =>
    match deduceOp0 ctx instruction dst op1 with
    | .error err => .error err
    | .ok (dOp0, dRes) =>
      match dOp0 with
      | some v => .ok (dRes, mem.insertDrop op0Addr v)
      | none => .ok (dRes, mem)

def op1DeductionBlock (instruction : Instruction) (mem1 : Memory)
    (op1Addr : Relocatable) (dst op0 op1 : Option MaybeRelocatable)
    (res0 : Option MaybeRelocatable) :
    Except Err (Option MaybeRelocatable × Memory) :=
  -- if (op1 === undefined) { deduce it, insert it, adopt res if unset }
  match op1 with
  | some _ => .ok (res0, mem1)
  | none =>
    match deduceOp1 instruction dst op0 with
    | .error err => .error err
    | .ok (dOp1, dRes) =>
      match dOp1 with
      | some v =>
          .ok (if res0.isNone then dRes else res0,
               mem1.insertDrop op1Addr v)
      | none => .ok (if res0.isNone then dRes else res0, mem1)

def resBlock (instruction : Instruction)
    (op0 op1 res1 : Option MaybeRelocatable) :
    Except Err (Option MaybeRelocatable) :=
  -- if (res === undefined) { res = computeRes(instruction, op0, op1) }
  match res1 with
  | some v => .ok (some v)
  | none => computeRes instruction op0 op1

def dstDeductionBlock (ctx : RunContext) (instruction : Instruction)
    (mem2 : Memory) (dstAddr : Relocatable)
    (dst res2 : Option MaybeRelocatable) :
    Except Err (Option MaybeRelocatable × Memory) :=
  -- if (dst === undefined) { dst = deduceDst(instruction, res); insert }
  match dst with
  | some v => .ok (some v, mem2)
  | none =>
    match deduceDst ctx instruction res2 with
    | .error err => .error err
    | .ok dDst =>
      match dDst with
      | some v => .ok (dDst, mem2.insertDrop dstAddr v)
      | none => .ok (dDst, mem2)

def computeOperands (ctx : RunContext) (mem : Memory)
    (instruction : Instruction) : Except Err (Operands × Memory) :=
  match ctx.computeAddress instruction.dstReg instruction.offDst with
  | .error err => .error err
  | .ok dstAddr =>
  let dst := mem.getOpt dstAddr
  match ctx.computeAddress instruction.op0Reg instruction.offOp0 with
  | .error err => .error err
  | .ok op0Addr =>
  let op0 := mem.getOpt op0Addr
  match ctx.computeOp1Address instruction.op1Src instruction.offOp1 op0 with
  | .error err => .error err
  | .ok op1Addr =>
  let op1 := mem.getOpt op1Addr
  match op0DeductionBlock ctx instruction mem op0Addr dst op0 op1 with
  | .error err => .error err
  | .ok (res0, mem1) =>
  match op1DeductionBlock instruction mem1 op1Addr dst op0 op1 res0 with
  | .error err => .error err
  | .ok (res1, mem2) =>
  match resBlock instruction op0 op1 res1 with
  | .error err => .error err
  | .ok res2 =>
  match dstDeductionBlock ctx instruction mem2 dstAddr dst res2 with
  | .error err => .error err
  | .ok (dstF, mem3) =>
    .ok (⟨op0, op1, res2, dstF⟩, mem3)

/-- VirtualMachine.step (vm source lines 44-69).  Fetch the word at pc
(absent: EndOfInstructionsError), require a Felt (else InstructionError),
convert to a 64-bit unsigned (conversion errors are thrown), decode - the
decode Result is not inspected - and then unconditionally throw the
Error(TODO: Not Implemented), modelled as the notImplemented error. -/
def step (ctx : RunContext) (mem : Memory) : Except Err Unit :=
  match mem.getOpt ctx.pc with
  | none => .error .endOfInstructionsError
  | some w =>
    match w with
    | .rel _ => .error .instructionError
    | .felt f =>
      match f.toUint64 with
      | .error err => .error err
      | .ok u =>
        let _instruction := decodeInstruction u
        .error .notImplemented

/-- A word together with the identity of the JavaScript object holding
it.  The strict comparisons of opcodeAssertion (the !== operator) compare
object identity, not value, so the operands reaching it are modelled as
value plus object identifier. -/
structure ObjWord where
  val : MaybeRelocatable
  objId : ℕ
deriving DecidableEq, Repr

/-- The operand quadruple as seen by opcodeAssertion, each entry an object
or undefined. -/
structure ObjOperands where
  op0 : Option ObjWord
  op1 : Option ObjWord
  res : Option ObjWord
  dst : Option ObjWord
deriving DecidableEq, Repr

/-- The JavaScript !== on two possibly-undefined objects: undefined is
only identical to undefined, and two objects are identical exactly when
they are the same object. -/
def jsStrictNe : Option ObjWord → Option ObjWord → Bool
  | none, none => false
  | some a, some b => a.objId != b.objId
  | _, _ => true

/-- Modelled from the spec: Relocatable.eq of the absent
primitives/relocatable.ts, used by opcodeAssertion for the op0 check:
value comparison, where a relocatable never equals a field element. -/
def Relocatable.eqWord (r : Relocatable) (w : MaybeRelocatable) : Bool :=
  match w with
  | .rel s => r == s
  | .felt _ => false

/-- VirtualMachine.opcodeAssertion (vm source lines 316-361).  AssertEq:
res must be defined (UnconstrainedResError), then the source compares
operands.dst !== operands.res - object identity, NOT value equality
(DiffAssertValuesError).  Call: op0 must be defined and value-equal
(through Relocatable.eq) to pc + size (InvalidOperand0), then the source
compares fp !== operands.dst - object identity again
(InvalidDstOperand), where fpId is the identity of the fp register object
returned by getFp.  Ret and NoOp assert nothing. -/
def opcodeAssertion (ctx : RunContext) (fpId : ℕ)
    (instruction : Instruction) (operands : ObjOperands) :
    Except Err Unit :=
  match instruction.opcode with
  | .AssertEq =>
    match operands.res with
    | none => .error .unconstrainedResError
    | some _ =>
      if jsStrictNe operands.dst operands.res then
        .error .diffAssertValuesError
      else .ok ()
  | .Call =>
    let returnPc : Relocatable := ⟨ctx.pc.seg, ctx.pc.off + instruction.size⟩
    match operands.op0 with
    | none => .error .invalidOperand0
    | some o =>
      if ¬ returnPc.eqWord o.val then .error .invalidOperand0
      else if jsStrictNe (some ⟨.rel ctx.fp, fpId⟩) operands.dst then
        .error .invalidDstOperand
      else .ok ()
  | _ => .ok ()

/-! ### Claim-side decode tables (for C5)

The following definitions transcribe the field tables of spec
section 4.5, word for word, as partial maps from the raw field value to
the decoded enum.  They are the specification side of the decoder
refinement and are deliberately independent of decodeInstruction. -/

/-- Spec table, bits 50-52: 0 = Op0, 1 = Imm, 2 = FP, 4 = AP; other
values are invalid. -/
def specOp1Src : ℕ → Option Op1Src
  | 0 => some .Op0
  | 1 => some .Imm
  | 2 => some .FP
  | 4 => some .AP
  | _ => none

/-- Spec table, bits 55-57: 0 = Regular, 1 = Jump, 2 = JumpRel, 4 = Jnz;
other values are invalid. -/
def specPcUpdate : ℕ → Option PcUpdate
  | 0 => some .Regular
  | 1 => some .Jump
  | 2 => some .JumpRel
  | 4 => some .Jnz
  | _ => none

/-- Spec table, bits 53-54: 0 = Op1, or Unconstrained when pc_update is
Jnz; 1 = Add; 2 = Mul; 3 is invalid. -/
def specResLogic (n : ℕ) (pcu : PcUpdate) : Option ResLogic :=
  match n with
  | 0 => some (if pcu = .Jnz then .Unconstrained else .Op1)
  | 1 => some .Add
  | 2 => some .Mul
  | _ => none

/-- Spec table, bits 60-62: 0 = NoOp, 1 = Call, 2 = Ret, 4 = AssertEq;
other values are invalid. -/
def specOpcode : ℕ → Option Opcode
  | 0 => some .NoOp
  | 1 => some .Call
  | 2 => some .Ret
  | 4 => some .AssertEq
  | _ => none

/-- Spec table, bits 58-59: 0 = Regular, but Add2 when the opcode is
Call; 1 = Add; 2 = Add1; 3 is invalid. -/
def specApUpdate (n : ℕ) (opc : Opcode) : Option ApUpdate :=
  match n with
  | 0 => some (if opc = .Call then .Add2 else .Regular)
  | 1 => some .Add
  | 2 => some .Add1
  | _ => none

/-! ### Concrete scenario constants used by the claims -/

/-- C1: a fresh memory with one allocated segment. -/
def memC1 : Memory := ⟨[], 1⟩

/-- C1: memC1 after storing Felt(3) at (0, 0). -/
def memC1b : Memory := ⟨[(⟨0, 0⟩, .felt ⟨3⟩)], 1⟩

/-- C1: AssertEq with res logic Add, dst at ap+0, op0 at ap+1, op1 at
fp+2. -/
def instrC1 : Instruction :=
  ⟨0, 1, 2, .AP, .AP, .FP, .Add, .Regular, .Regular, .Regular, .AssertEq⟩

/-- C1 and others: pc at (0, 0), ap = fp = (1, 0). -/
def ctxC1 : RunContext := ⟨⟨0, 0⟩, ⟨1, 0⟩, ⟨1, 0⟩⟩

/-- C1: dst cell Felt(9), op0 cell already filled with Felt(5), op1 cell
Felt(3); the value the Add deduction would rederive for op0 is
9 - 3 = 6, unequal to the stored 5. -/
def memC1c : Memory :=
  ⟨[(⟨1, 0⟩, .felt ⟨9⟩), (⟨1, 1⟩, .felt ⟨5⟩), (⟨1, 2⟩, .felt ⟨3⟩)], 2⟩

/-- C1: the operands computeOperands returns on memC1c (all three reads
present, res computed as op0 + op1 = 8). -/
def opsC1 : Operands :=
  ⟨some (.felt ⟨5⟩), some (.felt ⟨3⟩), some (.felt ⟨8⟩), some (.felt ⟨9⟩)⟩

/-- C2: a Call whose op1 comes from fp+2; op0 at ap+1 is absent and gets
deduced. -/
def instrC2 : Instruction :=
  ⟨0, 1, 2, .AP, .AP, .FP, .Op1, .Regular, .Add2, .ApPlus2, .Call⟩

/-- C2: only the op1 cell (1, 2) is filled. -/
def memC2 : Memory := ⟨[(⟨1, 2⟩, .felt ⟨9⟩)], 2⟩

/-- C2: the quadruple computeOperands returns: op0 is still undefined
even though a value was deduced for it and written to memory. -/
def opsC2 : Operands :=
  ⟨none, some (.felt ⟨9⟩), some (.felt ⟨9⟩), some (.rel ⟨1, 0⟩)⟩

/-- C2: the memory after resolution: the deduced op0 (the return address
pc + 1 = (0, 1)) and the deduced dst (the fp register) were written. -/
def memC2f : Memory :=
  ⟨[(⟨1, 0⟩, .rel ⟨1, 0⟩), (⟨1, 1⟩, .rel ⟨0, 1⟩), (⟨1, 2⟩, .felt ⟨9⟩)],
   2⟩

/-- C3: the encoded word of the scenario: off_dst = 0 (biased 0x8000),
off_op0 = 1 (0x8001), off_op1 = 0 (0x8000), dst_reg = FP, op0_reg = AP,
op1_src = AP, res_logic = Op1, pc_update = Regular, ap_update = Regular,
opcode = AssertEq; flag bits 0x4011. -/
def encodedC3 : ℕ := 0x4011800080018000

/-- C3: the decoded form of encodedC3. -/
def instrC3 : Instruction :=
  ⟨0, 1, 0, .FP, .AP, .AP, .Op1, .Regular, .Regular, .Regular, .AssertEq⟩

/-- C3: program segment holds the encoded word at pc = (0, 0), execution
segment holds Felt(7) at ap + 0 = (1, 0). -/
def memC3 : Memory :=
  ⟨[(⟨0, 0⟩, .felt ⟨encodedC3⟩), (⟨1, 0⟩, .felt ⟨7⟩)], 2⟩

/-- C4: AssertEq with res logic Op1 (the shape of the dst / res
comparison is all that matters to the assertion). -/
def instrC4 : Instruction :=
  ⟨0, 0, 0, .FP, .AP, .AP, .Op1, .Regular, .Regular, .Regular, .AssertEq⟩

/-- C4: dst read from memory is the Felt(7) object number 1; res was
computed from the op1 cell, the Felt(7) object number 2 - equal by value,
distinct as objects. -/
def opsC4 : ObjOperands :=
  ⟨none, some ⟨.felt ⟨7⟩, 2⟩, some ⟨.felt ⟨7⟩, 2⟩, some ⟨.felt ⟨7⟩, 1⟩⟩

/-- C6: a NoOp with res logic Add: nothing deduces op0, so computeRes is
reached with op0 absent. -/
def instrC6 : Instruction :=
  ⟨0, 1, 2, .AP, .AP, .FP, .Add, .Regular, .Regular, .Regular, .NoOp⟩

/-- C6: dst cell (1, 0) and op1 cell (1, 2) are filled, the op0 cell
(1, 1) is empty. -/
def memC6 : Memory :=
  ⟨[(⟨1, 0⟩, .felt ⟨1⟩), (⟨1, 2⟩, .felt ⟨5⟩)], 2⟩

/-- C7: AssertEq with res logic Mul. -/
def instrC7 : Instruction :=
  ⟨0, 0, 0, .AP, .AP, .FP, .Mul, .Regular, .Regular, .Regular, .AssertEq⟩

/-- C10: a Call with immediate op1; pc + 1 = (0, 1) holds the immediate.
Only segment 0 is allocated, so every write-back into segment 1 (ap and
fp live at (1, 0)) fails with SegmentError and is discarded. -/
def instrC10 : Instruction :=
  ⟨0, 1, 1, .AP, .AP, .Imm, .Op1, .Jump, .Add2, .ApPlus2, .Call⟩

/-- C10: memory with a single segment; (0, 1) holds the immediate 42. -/
def memC10 : Memory := ⟨[(⟨0, 1⟩, .felt ⟨42⟩)], 1⟩

/-- C10: the quadruple computeOperands returns on memC10: resolution
succeeded although both the op0 and the dst write-backs failed. -/
def opsC10 : Operands :=
  ⟨none, some (.felt ⟨42⟩), some (.felt ⟨42⟩), some (.rel ⟨1, 0⟩)⟩

/-- Helper predicate for C10: an error distinct from the two errors
Memory.insert can produce. -/
def Err.notInsertErr (e : Err) : Prop :=
  e ≠ .writeOnceError ∧ e ≠ .segmentError

/-! ### Theorems -/

/-- Offset application only fails with OffsetUnderflow. -/
theorem notInsertErr_applyOffset (b : Relocatable) (off : ℤ) (e : Err)
    (h : b.applyOffset off = .error e) : e.notInsertErr := by
  unfold Relocatable.applyOffset at h
  repeat' split at h
  all_goals first
    | (simp_all; done)
    | ((try simp only [Except.error.injEq] at h); subst h;
       exact ⟨by simp, by simp⟩)

/-- computeAddress only fails with OffsetUnderflow. -/
theorem notInsertErr_computeAddress (ctx : RunContext)
    (reg : RegisterFlag) (off : ℤ) (e : Err)
    (h : ctx.computeAddress reg off = .error e) : e.notInsertErr := by
  unfold RunContext.computeAddress at h
  cases reg <;> exact notInsertErr_applyOffset _ _ _ h

/-- computeOp1Address never fails with a memory insert error. -/
theorem notInsertErr_computeOp1Address (ctx : RunContext) (src : Op1Src)
    (off : ℤ) (op0 : Option MaybeRelocatable) (e : Err)
    (h : ctx.computeOp1Address src off op0 = .error e) : e.notInsertErr := by
  unfold RunContext.computeOp1Address at h
  repeat' split at h
  all_goals first
    | exact notInsertErr_applyOffset _ _ _ h
    | (simp_all; done)
    | ((try simp only [Except.error.injEq] at h); subst h;
       exact ⟨by simp, by simp⟩)

/-- Word subtraction never fails with a memory insert error. -/
theorem notInsertErr_sub (a b : MaybeRelocatable) (e : Err)
    (h : a.sub b = .error e) : e.notInsertErr := by
  unfold MaybeRelocatable.sub at h
  repeat' split at h
  all_goals first
    | (simp_all; done)
    | ((try simp only [Except.error.injEq] at h); subst h;
       exact ⟨by simp, by simp⟩)

/-- Word addition never fails with a memory insert error. -/
theorem notInsertErr_add (a b : MaybeRelocatable) (e : Err)
    (h : a.add b = .error e) : e.notInsertErr := by
  unfold MaybeRelocatable.add at h
  repeat' split at h
  all_goals first
    | (simp_all; done)
    | ((try simp only [Except.error.injEq] at h); subst h;
       exact ⟨by simp, by simp⟩)

/-- Word multiplication never fails with a memory insert error. -/
theorem notInsertErr_mul (a b : MaybeRelocatable) (e : Err)
    (h : a.mul b = .error e) : e.notInsertErr := by
  unfold MaybeRelocatable.mul at h
  repeat' split at h
  all_goals first
    | (simp_all; done)
    | ((try simp only [Except.error.injEq] at h); subst h;
       exact ⟨by simp, by simp⟩)

/-- deduceOp0 never fails with a memory insert error. -/
theorem notInsertErr_deduceOp0 (ctx : RunContext)
    (instruction : Instruction) (dst op1 : Option MaybeRelocatable)
    (e : Err) (h : deduceOp0 ctx instruction dst op1 = .error e) :
    e.notInsertErr := by
  unfold deduceOp0 at h
  repeat' split at h
  all_goals first
    | (simp_all; done)
    | ((try simp only [Except.error.injEq] at h); subst h;
       exact notInsertErr_sub _ _ _ (by assumption))

/-- deduceOp1 never fails with a memory insert error. -/
theorem notInsertErr_deduceOp1 (instruction : Instruction)
    (dst op0 : Option MaybeRelocatable) (e : Err)
    (h : deduceOp1 instruction dst op0 = .error e) : e.notInsertErr := by
  unfold deduceOp1 at h
  repeat' split at h
  all_goals first
    | (simp_all; done)
    | ((try simp only [Except.error.injEq] at h); subst h;
       exact notInsertErr_sub _ _ _ (by assumption))

/-- computeRes never fails with a memory insert error. -/
theorem notInsertErr_computeRes (instruction : Instruction)
    (op0 op1 : Option MaybeRelocatable) (e : Err)
    (h : computeRes instruction op0 op1 = .error e) : e.notInsertErr := by
  unfold computeRes at h
  repeat' split at h
  all_goals first
    | (simp_all; done)
    | ((try simp only [Except.error.injEq] at h); subst h;
       first
        | exact notInsertErr_add _ _ _ (by assumption)
        | exact notInsertErr_mul _ _ _ (by assumption)
        | exact ⟨by simp, by simp⟩)

/-- deduceDst never fails at all. -/
theorem deduceDst_never_errors (ctx : RunContext)
    (instruction : Instruction) (res : Option MaybeRelocatable) (e : Err)
    (h : deduceDst ctx instruction res = .error e) : False := by
  unfold deduceDst at h
  repeat' split at h
  all_goals simp_all

/-- The op0 deduction block never fails with a memory insert error. -/
theorem notInsertErr_op0Block (ctx : RunContext)
    (instruction : Instruction) (mem : Memory) (op0Addr : Relocatable)
    (dst op0 op1 : Option MaybeRelocatable) (e : Err)
    (h : op0DeductionBlock ctx instruction mem op0Addr dst op0 op1 =
      .error e) : e.notInsertErr := by
  unfold op0DeductionBlock at h
  repeat' split at h
  all_goals first
    | (simp_all; done)
    | ((try simp only [Except.error.injEq] at h); subst h;
       exact notInsertErr_deduceOp0 _ _ _ _ _ (by assumption))

/-- The op1 deduction block never fails with a memory insert error. -/
theorem notInsertErr_op1Block (instruction : Instruction) (mem1 : Memory)
    (op1Addr : Relocatable) (dst op0 op1 res0 : Option MaybeRelocatable)
    (e : Err)
    (h : op1DeductionBlock instruction mem1 op1Addr dst op0 op1 res0 =
      .error e) : e.notInsertErr := by
  unfold op1DeductionBlock at h
  repeat' split at h
  all_goals first
    | (simp_all; done)
    | ((try simp only [Except.error.injEq] at h); subst h;
       exact notInsertErr_deduceOp1 _ _ _ _ (by assumption))

/-- The res block never fails with a memory insert error. -/
theorem notInsertErr_resBlock (instruction : Instruction)
    (op0 op1 res1 : Option MaybeRelocatable) (e : Err)
    (h : resBlock instruction op0 op1 res1 = .error e) :
    e.notInsertErr := by
  unfold resBlock at h
  repeat' split at h
  all_goals first
    | simp_all
    | exact notInsertErr_computeRes _ _ _ _ h

/-- The dst deduction block never fails at all. -/
theorem dstBlock_never_errors (ctx : RunContext)
    (instruction : Instruction) (mem2 : Memory) (dstAddr : Relocatable)
    (dst res2 : Option MaybeRelocatable) (e : Err)
    (h : dstDeductionBlock ctx instruction mem2 dstAddr dst res2 =
      .error e) : False := by
  unfold dstDeductionBlock at h
  repeat' split at h
  all_goals first
    | (simp_all; done)
    | exact deduceDst_never_errors _ _ _ _ (by assumption)

/-- Master classification: computeOperands never surfaces WriteOnceError
or SegmentError, because the Result of every memory.insert it performs
is discarded. -/
theorem notInsertErr_computeOperands (ctx : RunContext) (mem : Memory)
    (instruction : Instruction) (e : Err)
    (h : computeOperands ctx mem instruction = .error e) :
    e.notInsertErr := by
  unfold computeOperands at h
  rcases hD : ctx.computeAddress instruction.dstReg instruction.offDst
      with eD | aD <;> rw [hD] at h
  · simp only [Except.error.injEq] at h
    subst h
    exact notInsertErr_computeAddress _ _ _ _ hD
  rcases h0 : ctx.computeAddress instruction.op0Reg instruction.offOp0
      with e0 | a0 <;> rw [h0] at h
  · simp only [Except.error.injEq] at h
    subst h
    exact notInsertErr_computeAddress _ _ _ _ h0
  dsimp only at h
  rcases h1 : ctx.computeOp1Address instruction.op1Src instruction.offOp1
      (mem.getOpt a0) with e1 | a1 <;> rw [h1] at h
  · simp only [Except.error.injEq] at h
    subst h
    exact notInsertErr_computeOp1Address _ _ _ _ _ h1
  dsimp only at h
  rcases hB0 : op0DeductionBlock ctx instruction mem a0 (mem.getOpt aD)
      (mem.getOpt a0) (mem.getOpt a1) with eB0 | ⟨res0, mem1⟩ <;>
    rw [hB0] at h
  · simp only [Except.error.injEq] at h
    subst h
    exact notInsertErr_op0Block _ _ _ _ _ _ _ _ hB0
  dsimp only at h
  rcases hB1 : op1DeductionBlock instruction mem1 a1 (mem.getOpt aD)
      (mem.getOpt a0) (mem.getOpt a1) res0 with eB1 | ⟨res1, mem2⟩ <;>
    rw [hB1] at h
  · simp only [Except.error.injEq] at h
    subst h
    exact notInsertErr_op1Block _ _ _ _ _ _ _ _ hB1
  dsimp only at h
  rcases hBr : resBlock instruction (mem.getOpt a0) (mem.getOpt a1) res1
      with eBr | res2 <;> rw [hBr] at h
  · simp only [Except.error.injEq] at h
    subst h
    exact notInsertErr_resBlock _ _ _ _ _ hBr
  dsimp only at h
  rcases hBd : dstDeductionBlock ctx instruction mem2 aD (mem.getOpt aD)
      res2 with eBd | ⟨dstF, mem3⟩ <;> rw [hBd] at h
  · exact absurd hBd (fun hc => dstBlock_never_errors _ _ _ _ _ _ _ hc)
  · simp at h

/-- Stage refinement: the op1Src switch agrees with the spec table. -/
theorem decodeOp1Src_spec (n : ℕ) :
    decodeOp1Src n = (match specOp1Src n with
      | some s => .ok s
      | none => .error .invalidOp1Src) := by
  rcases n with _ | _ | _ | _ | _ | n <;> rfl

/-- Stage refinement: the pcUpdate switch agrees with the spec table. -/
theorem decodePcUpdate_spec (n : ℕ) :
    decodePcUpdate n = (match specPcUpdate n with
      | some s => .ok s
      | none => .error .invalidPcUpdate) := by
  rcases n with _ | _ | _ | _ | _ | n <;> rfl

/-- Stage refinement: the resLogic switch agrees with the spec table. -/
theorem decodeResLogic_spec (n : ℕ) (pcu : PcUpdate) :
    decodeResLogic n pcu = (match specResLogic n pcu with
      | some s => .ok s
      | none => .error .invalidResultLogic) := by
  rcases n with _ | _ | _ | n
  · by_cases hp : pcu = .Jnz <;> simp [decodeResLogic, specResLogic, hp]
  · rfl
  · rfl
  · rfl

/-- Stage refinement: the opcode switch agrees with the spec table. -/
theorem decodeOpcode_spec (n : ℕ) :
    decodeOpcode n = (match specOpcode n with
      | some s => .ok s
      | none => .error .invalidOpcode) := by
  rcases n with _ | _ | _ | _ | _ | n <;> rfl

/-- Stage refinement: the apUpdate switch agrees with the spec table. -/
theorem decodeApUpdate_spec (n : ℕ) (opc : Opcode) :
    decodeApUpdate n opc = (match specApUpdate n opc with
      | some s => .ok s
      | none => .error .invalidApUpdate) := by
  rcases n with _ | _ | _ | n
  · by_cases hc : opc = .Call <;> simp [decodeApUpdate, specApUpdate, hc]
  · rfl
  · rfl
  · rfl

/-- Raw value 3 is invalid for res_logic. -/
theorem specResLogic_three (pcu : PcUpdate) : specResLogic 3 pcu = none :=
  rfl

/-- Raw value 3 is invalid for ap_update. -/
theorem specApUpdate_three (opc : Opcode) : specApUpdate 3 opc = none :=
  rfl

/-- A successful res_logic table entry never has raw value 3. -/
theorem specResLogic_ne_three {n : ℕ} {pcu : PcUpdate} {s : ResLogic}
    (h : specResLogic n pcu = some s) : n ≠ 3 := by
  intro h3
  subst h3
  rw [specResLogic_three] at h
  cases h

/-- A successful ap_update table entry never has raw value 3. -/
theorem specApUpdate_ne_three {n : ℕ} {opc : Opcode} {s : ApUpdate}
    (h : specApUpdate n opc = some s) : n ≠ 3 := by
  intro h3
  subst h3
  rw [specApUpdate_three] at h
  cases h

/-- A res_logic table miss on a two-bit raw value forces the value 3. -/
theorem specResLogic_none_three {n : ℕ} {pcu : PcUpdate}
    (h : specResLogic n pcu = none) (hlt : n < 4) : n = 3 := by
  rcases (show n = 0 ∨ n = 1 ∨ n = 2 ∨ n = 3 by omega)
      with h0 | h0 | h0 | h0 <;> subst h0 <;>
    first
      | rfl
      | (exfalso; simp [specResLogic] at h)

/-- Layout of decoding a word whose bit 63 is clear: decode never
reports HighBitSet, the decoded fields follow the documented bit ranges
(raw enum values read off the spec tables), and each invalid raw field
value yields its error, checked in the source order
op1_src, pc_update, res_logic, opcode, ap_update. -/
theorem decode_layout_aux (e : ℕ) (hb : e / 2 ^ 63 % 2 = 0) :
    decodeInstruction e ≠ .error .highBitSetError ∧
    (∀ i : Instruction, decodeInstruction e = .ok i →
      i.offDst = ((e % 2 ^ 16 : ℕ) : ℤ) - 2 ^ 15 ∧
      i.offOp0 = ((e / 2 ^ 16 % 2 ^ 16 : ℕ) : ℤ) - 2 ^ 15 ∧
      i.offOp1 = ((e / 2 ^ 32 % 2 ^ 16 : ℕ) : ℤ) - 2 ^ 15 ∧
      i.dstReg = (if e / 2 ^ 48 % 2 = 0 then RegisterFlag.AP
        else RegisterFlag.FP) ∧
      i.op0Reg = (if e / 2 ^ 49 % 2 = 0 then RegisterFlag.AP
        else RegisterFlag.FP) ∧
      specOp1Src (e / 2 ^ 50 % 2 ^ 3) = some i.op1Src ∧
      specPcUpdate (e / 2 ^ 55 % 2 ^ 3) = some i.pcUpdate ∧
      specResLogic (e / 2 ^ 53 % 2 ^ 2) i.pcUpdate = some i.resLogic ∧
      specOpcode (e / 2 ^ 60 % 2 ^ 3) = some i.opcode ∧
      specApUpdate (e / 2 ^ 58 % 2 ^ 2) i.opcode = some i.apUpdate ∧
      i.fpUpdate = (match i.opcode with
        | .Call => FpUpdate.ApPlus2
        | .Ret => FpUpdate.Dst
        | _ => FpUpdate.Regular) ∧
      i.size = (if i.op1Src = .Imm then 2 else 1)) ∧
    (specOp1Src (e / 2 ^ 50 % 2 ^ 3) = none →
      decodeInstruction e = .error .invalidOp1Src) ∧
    ((specOp1Src (e / 2 ^ 50 % 2 ^ 3)).isSome →
      specPcUpdate (e / 2 ^ 55 % 2 ^ 3) = none →
      decodeInstruction e = .error .invalidPcUpdate) ∧
    ((specOp1Src (e / 2 ^ 50 % 2 ^ 3)).isSome →
      (specPcUpdate (e / 2 ^ 55 % 2 ^ 3)).isSome →
      e / 2 ^ 53 % 2 ^ 2 = 3 →
      decodeInstruction e = .error .invalidResultLogic) ∧
    ((specOp1Src (e / 2 ^ 50 % 2 ^ 3)).isSome →
      (specPcUpdate (e / 2 ^ 55 % 2 ^ 3)).isSome →
      e / 2 ^ 53 % 2 ^ 2 ≠ 3 →
      specOpcode (e / 2 ^ 60 % 2 ^ 3) = none →
      decodeInstruction e = .error .invalidOpcode) ∧
    ((specOp1Src (e / 2 ^ 50 % 2 ^ 3)).isSome →
      (specPcUpdate (e / 2 ^ 55 % 2 ^ 3)).isSome →
      e / 2 ^ 53 % 2 ^ 2 ≠ 3 →
      (specOpcode (e / 2 ^ 60 % 2 ^ 3)).isSome →
      e / 2 ^ 58 % 2 ^ 2 = 3 →
      decodeInstruction e = .error .invalidApUpdate) := by
  have hq1 : e / 2 ^ 48 / 2 = e / 2 ^ 49 := by
    rw [Nat.div_div_eq_div_mul]; norm_num
  have hq2 : e / 2 ^ 48 / 2 ^ 2 = e / 2 ^ 50 := by
    rw [Nat.div_div_eq_div_mul]; norm_num
  have hq5 : e / 2 ^ 48 / 2 ^ 5 = e / 2 ^ 53 := by
    rw [Nat.div_div_eq_div_mul]; norm_num
  have hq7 : e / 2 ^ 48 / 2 ^ 7 = e / 2 ^ 55 := by
    rw [Nat.div_div_eq_div_mul]; norm_num
  have hq10 : e / 2 ^ 48 / 2 ^ 10 = e / 2 ^ 58 := by
    rw [Nat.div_div_eq_div_mul]; norm_num
  have hq12 : e / 2 ^ 48 / 2 ^ 12 = e / 2 ^ 60 := by
    rw [Nat.div_div_eq_div_mul]; norm_num
  unfold decodeInstruction
  rw [if_neg (show ¬ e / 2 ^ 63 % 2 ≠ 0 from fun hcon => hcon hb)]
  dsimp only
  rw [hq1, hq2, hq5, hq7, hq10, hq12, decodeOp1Src_spec,
    decodePcUpdate_spec, decodeOpcode_spec]
  rcases hS1 : specOp1Src (e / 2 ^ 50 % 2 ^ 3) with _ | s1 <;>
    simp only [hS1]
  · simp
  rcases hS2 : specPcUpdate (e / 2 ^ 55 % 2 ^ 3) with _ | s2 <;>
    simp only [hS2]
  · simp
  rw [decodeResLogic_spec]
  rcases hS3 : specResLogic (e / 2 ^ 53 % 2 ^ 2) s2 with _ | s3 <;>
    simp only [hS3]
  · have h3 : e / 2 ^ 53 % 2 ^ 2 = 3 :=
      specResLogic_none_three hS3 (Nat.mod_lt _ (by norm_num))
    refine ⟨by simp, by simp, by simp, by simp, by simp, ?_, ?_⟩
    · intro _ _ hne _
      exact absurd h3 hne
    · intro _ _ hne _ _
      exact absurd h3 hne
  rcases hS4 : specOpcode (e / 2 ^ 60 % 2 ^ 3) with _ | s4 <;>
    simp only [hS4]
  · refine ⟨by simp, by simp, by simp, by simp, ?_, by simp, by simp⟩
    intro _ _ h3
    exact absurd h3 (specResLogic_ne_three hS3)
  rw [decodeApUpdate_spec]
  rcases hS5 : specApUpdate (e / 2 ^ 58 % 2 ^ 2) s4 with _ | s5 <;>
    simp only [hS5]
  · refine ⟨by simp, by simp, by simp, by simp, ?_, by simp, by simp⟩
    intro _ _ h3
    exact absurd h3 (specResLogic_ne_three hS3)
  refine ⟨by simp, ?_, by simp, by simp, ?_, by simp, ?_⟩
  · intro i h
    simp only [Except.ok.injEq] at h
    subst h
    refine ⟨rfl, rfl, rfl, rfl, rfl, rfl, rfl, hS3, rfl, hS5, ?_, rfl⟩
    cases s4 <;> rfl
  · intro _ _ h3
    exact absurd h3 (specResLogic_ne_three hS3)
  · intro _ _ _ _ h5
    exact absurd h5 (specApUpdate_ne_three hS5)

/-- C1, counterexample: the claim says a second insert at the same
address succeeds iff the word equals the stored one by value; in the
code a second insert at the same address fails with WriteOnceError even
when the word is the very same Felt(3) just stored. -/
theorem C1_counterexample_equal_insert_rejected :
    memC1.insert ⟨0, 0⟩ (.felt ⟨3⟩) = .ok memC1b ∧
    memC1b.insert ⟨0, 0⟩ (.felt ⟨3⟩) = .error .writeOnceError :=
  ⟨rfl, rfl⟩

/-- C3: on the AssertEq scenario (encoded word at pc = (0,0), Felt(7) at
ap + 0, ap = fp = (1,0)) the claim expects step to succeed, write Felt(7)
to fp + 0 and advance pc; the code decodes the word correctly and then
unconditionally throws the Error(TODO: Not Implemented), so step never
succeeds on any input. -/
theorem C3_step_always_not_implemented :
    step ctxC1 memC3 = .error .notImplemented ∧
    decodeInstruction encodedC3 = .ok instrC3 :=
  ⟨rfl, rfl⟩

/-- C4: the opcode assertion for AssertEq compares dst and res with the
strict !== operator, which is object identity: two Felt(7) objects that
are equal by value but distinct as objects make it fail with
DiffAssertValuesError, where the claim requires structural value
comparison and hence success. -/
theorem C4_assertion_rejects_value_equal_objects :
    (⟨.felt ⟨7⟩, 1⟩ : ObjWord).val = (⟨.felt ⟨7⟩, 2⟩ : ObjWord).val ∧
    opcodeAssertion ctxC1 0 instrC4 opsC4 = .error .diffAssertValuesError :=
  ⟨rfl, rfl⟩

/-- C6: with a NoOp of res logic Add whose op0 cell (1, 1) is empty,
nothing deduces op0 and res stays undefined, yet computeOperands invokes
computeRes anyway; the add method is called on an undefined operand, a
JavaScript TypeError, modelled as the jsTypeError error.  The claim says
computeRes is reached only with both operands defined. -/
theorem C6_computeRes_applied_to_absent_operand :
    memC6.getOpt ⟨1, 1⟩ = none ∧
    computeOperands ctxC1 memC6 instrC6 = .error .jsTypeError :=
  ⟨rfl, rfl⟩

/-- C7, counterexample: the claim says division by zero is the only
error recovered inside deduction and a type mismatch from dividing
incompatible word variants propagates; in the code deduceOp0 for
AssertEq with Mul swallows the TypeMismatch of dividing a Relocatable
dst by a Felt op1 and returns a successful (undefined, undefined). -/
theorem C7_counterexample_type_mismatch_swallowed :
    MaybeRelocatable.div (.rel ⟨0, 5⟩) (.felt ⟨2⟩) = .error .typeMismatch ∧
    deduceOp0 ctxC1 instrC7 (some (.rel ⟨0, 5⟩)) (some (.felt ⟨2⟩)) =
      .ok (none, none) :=
  ⟨rfl, rfl⟩

/-- C8, counterexample: the claim says construction from any integer
reduces modulo the prime and succeeds for negative inputs; the Felt
constructor throws FeltError on -1, and accepts PRIME itself unreduced,
so the stored value is not strictly below the prime. -/
theorem C8_counterexample_constructor_throws :
    Felt.new (-1) = .error .feltError ∧
    Felt.new ((PRIME : ℕ) : ℤ) = .ok ⟨PRIME⟩ ∧
    ¬ (Felt.mk PRIME).inner < PRIME := by
  refine ⟨rfl, ?_, by simp⟩
  unfold Felt.new
  rw [if_neg]
  · simp
  · simp

/-- C9: the claim (and the repository's own memory test expecting None)
says get returns the stored word or None and never an error; the code
returns Err(UnknownAddressError) for an empty cell, both inside an
allocated segment and beyond numSegments. -/
theorem C9_get_errors_on_empty_cell :
    Memory.get ⟨[], 1⟩ ⟨0, 0⟩ = .error .unknownAddressError ∧
    Memory.get ⟨[(⟨0, 0⟩, .felt ⟨1⟩)], 1⟩ ⟨5, 7⟩ =
      .error .unknownAddressError ∧
    Memory.get ⟨[(⟨0, 0⟩, .felt ⟨1⟩)], 1⟩ ⟨0, 0⟩ = .ok (.felt ⟨1⟩) :=
  ⟨rfl, rfl, rfl⟩

/-- C1, amended: after a successful insert(A, W), any later insert at A
fails with WriteOnceError regardless of the value; and the deduction
cascade never fails a step with WriteOnce - a filled op0 cell suppresses
deduction altogether, and computeOperands completes successfully on the
scenario where the rederivable op0 value (9 - 3 = 6) differs from the
stored Felt(5). -/
theorem C1_second_insert_always_write_once :
    (∀ (m : Memory) (a : Relocatable) (w w1 : MaybeRelocatable)
        (m1 : Memory), m.insert a w = .ok m1 →
        m1.insert a w1 = .error .writeOnceError) ∧
    computeOperands ctxC1 memC1c instrC1 = .ok (opsC1, memC1c) := by
  constructor
  · intro m a w w1 m1 h
    by_cases hseg : m.numSegments ≤ a.seg
    · simp [Memory.insert, hseg] at h
    · by_cases hlook : (Memory.lookup m a).isSome
      · simp [Memory.insert, hseg, hlook] at h
      · simp [Memory.insert, hseg, hlook] at h
        subst h
        simp [Memory.insert, Memory.lookup, hseg, List.find?]
  · rfl

/-- C1, witness for the universal part: inserting Felt(4) over the cell
that already holds Felt(3) fails with WriteOnceError. -/
theorem C1_witness :
    memC1b.insert ⟨0, 0⟩ (.felt ⟨4⟩) = .error .writeOnceError :=
  C1_second_insert_always_write_once.1 memC1 ⟨0, 0⟩ (.felt ⟨3⟩)
    (.felt ⟨4⟩) memC1b rfl

/-- C2, counterexample: on a Call whose op0 cell (1, 1) is empty,
computeOperands succeeds, the deduced op0 (the return address (0, 1))
is written to memory, but the returned quadruple still has op0
undefined - the claim requires the deduced value to appear in the
returned Operands as well. -/
theorem C2_counterexample_deduced_op0_missing :
    computeOperands ctxC1 memC2 instrC2 = .ok (opsC2, memC2f) ∧
    opsC2.op0 = none ∧
    memC2f.getOpt ⟨1, 1⟩ = some (.rel ⟨0, 1⟩) :=
  ⟨rfl, rfl, rfl⟩

/-- C2, amended: when computeOperands succeeds, the returned op0 and op1
are exactly the initial memory reads at their addresses (deduction never
updates them, so a deduced op0 or op1 lives only in memory), and the
returned dst is the read value whenever the dst cell was filled. -/
theorem C2_success_returns_initial_reads :
    ∀ (ctx : RunContext) (mem : Memory) (instruction : Instruction)
      (aD a0 a1 : Relocatable) (ops : Operands) (memF : Memory),
      ctx.computeAddress instruction.dstReg instruction.offDst = .ok aD →
      ctx.computeAddress instruction.op0Reg instruction.offOp0 = .ok a0 →
      ctx.computeOp1Address instruction.op1Src instruction.offOp1
        (mem.getOpt a0) = .ok a1 →
      computeOperands ctx mem instruction = .ok (ops, memF) →
      ops.op0 = mem.getOpt a0 ∧ ops.op1 = mem.getOpt a1 ∧
      (∀ w, mem.getOpt aD = some w → ops.dst = some w) := by
  intro ctx mem instruction aD a0 a1 ops memF hD h0 h1 h
  unfold computeOperands at h
  rw [hD, h0] at h
  dsimp only at h
  rw [h1] at h
  dsimp only at h
  repeat' split at h
  all_goals try (simp only [reduceCtorEq] at h)
  rw [Except.ok.injEq, Prod.mk.injEq] at h
  obtain ⟨h4, h5⟩ := h
  subst h4
  refine ⟨rfl, rfl, ?_⟩
  intro w hw
  simp_all [dstDeductionBlock]

/-- C2, witness: the amended statement instantiated on the Call scenario
of the counterexample. -/
theorem C2_witness :
    opsC2.op0 = memC2.getOpt ⟨1, 1⟩ ∧ opsC2.op1 = memC2.getOpt ⟨1, 2⟩ :=
  have h := C2_success_returns_initial_reads ctxC1 memC2 instrC2
    ⟨1, 0⟩ ⟨1, 1⟩ ⟨1, 2⟩ opsC2 memC2f rfl rfl rfl rfl
  ⟨h.1, h.2.1⟩

/-- C7, amended: inside deduceOp0 and deduceOp1 for AssertEq with Mul,
EVERY error of the division - division by zero as well as the type
mismatch of incompatible word variants - is swallowed into a successful
(undefined, undefined); the errors of the subtraction in the Add case
are propagated to the caller. -/
theorem C7_all_division_errors_swallowed :
    ∀ (ctx : RunContext) (instruction : Instruction)
      (d o : MaybeRelocatable) (err : Err),
      instruction.opcode = .AssertEq →
      (instruction.resLogic = .Mul → d.div o = .error err →
        deduceOp0 ctx instruction (some d) (some o) = .ok (none, none) ∧
        deduceOp1 instruction (some d) (some o) = .ok (none, none)) ∧
      (instruction.resLogic = .Add → d.sub o = .error err →
        deduceOp0 ctx instruction (some d) (some o) = .error err ∧
        deduceOp1 instruction (some d) (some o) = .error err) := by
  intro ctx instruction d o err hop
  constructor
  · intro hres hdiv
    constructor <;> simp [deduceOp0, deduceOp1, hop, hres, hdiv]
  · intro hres hsub
    constructor <;> simp [deduceOp0, deduceOp1, hop, hres, hsub]

/-- C7, witness: the swallow branch instantiated on the TypeMismatch of
dividing a Relocatable dst by a Felt op1. -/
theorem C7_witness :
    deduceOp0 ctxC1 instrC7 (some (.rel ⟨0, 5⟩)) (some (.felt ⟨2⟩)) =
      .ok (none, none) ∧
    deduceOp1 instrC7 (some (.rel ⟨0, 5⟩)) (some (.felt ⟨2⟩)) =
      .ok (none, none) :=
  (C7_all_division_errors_swallowed ctxC1 instrC7 (.rel ⟨0, 5⟩)
    (.felt ⟨2⟩) .typeMismatch rfl).1 rfl rfl

/-- C8, amended: the constructor stores its argument unreduced and
succeeds exactly on 0 ≤ i ≤ PRIME (note: PRIME included); every other
integer, in particular every negative one, makes it throw FeltError. -/
theorem C8_constructor_accepts_exactly_zero_to_prime :
    ∀ i : ℤ,
      (0 ≤ i ∧ i ≤ ((PRIME : ℕ) : ℤ) → Felt.new i = .ok ⟨i.toNat⟩) ∧
      (i < 0 ∨ ((PRIME : ℕ) : ℤ) < i → Felt.new i = .error .feltError) := by
  intro i
  constructor
  · intro h
    rw [Felt.new, if_neg (by omega)]
  · intro h
    rw [Felt.new, if_pos h]

/-- C8, witness: the two branches of the amended statement at 5 and -7. -/
theorem C8_witness :
    Felt.new 5 = .ok ⟨(5 : ℤ).toNat⟩ ∧ Felt.new (-7) = .error .feltError :=
  ⟨(C8_constructor_accepts_exactly_zero_to_prime 5).1
      ⟨by omega, by decide⟩,
   (C8_constructor_accepts_exactly_zero_to_prime (-7)).2
      (Or.inl (by omega))⟩

/-- C5: decodeInstruction fails with HighBitSet exactly when bit 63 of
the input is set; otherwise the three offsets are the biased 16-bit
fields of bits 0-15, 16-31 and 32-47 (value = raw - 2^15), dst_reg and
op0_reg come from bits 48 and 49, op1_src (bits 50-52), pc_update
(bits 55-57), res_logic (bits 53-54, Unconstrained when pc_update is
Jnz), opcode (bits 60-62) and ap_update (bits 58-59, Add2 for Call)
follow the spec tables, fp_update is derived from the opcode
(Call to ApPlus2, Ret to Dst, else Regular), and size is 2 exactly when
op1_src is Imm; each invalid raw field value yields its specific decode
error, fields being checked in the source order. -/
theorem C5_decode_matches_documented_layout :
    ∀ e : ℕ,
      (decodeInstruction e = .error .highBitSetError ↔ e.testBit 63) ∧
      (∀ i : Instruction, decodeInstruction e = .ok i →
        i.offDst = ((e % 2 ^ 16 : ℕ) : ℤ) - 2 ^ 15 ∧
        i.offOp0 = ((e >>> 16 % 2 ^ 16 : ℕ) : ℤ) - 2 ^ 15 ∧
        i.offOp1 = ((e >>> 32 % 2 ^ 16 : ℕ) : ℤ) - 2 ^ 15 ∧
        i.dstReg = (if e.testBit 48 then RegisterFlag.FP
          else RegisterFlag.AP) ∧
        i.op0Reg = (if e.testBit 49 then RegisterFlag.FP
          else RegisterFlag.AP) ∧
        specOp1Src (e >>> 50 % 2 ^ 3) = some i.op1Src ∧
        specPcUpdate (e >>> 55 % 2 ^ 3) = some i.pcUpdate ∧
        specResLogic (e >>> 53 % 2 ^ 2) i.pcUpdate = some i.resLogic ∧
        specOpcode (e >>> 60 % 2 ^ 3) = some i.opcode ∧
        specApUpdate (e >>> 58 % 2 ^ 2) i.opcode = some i.apUpdate ∧
        i.fpUpdate = (match i.opcode with
          | .Call => FpUpdate.ApPlus2
          | .Ret => FpUpdate.Dst
          | _ => FpUpdate.Regular) ∧
        i.size = (if i.op1Src = .Imm then 2 else 1)) ∧
      (¬ e.testBit 63 →
        (specOp1Src (e >>> 50 % 2 ^ 3) = none →
          decodeInstruction e = .error .invalidOp1Src) ∧
        ((specOp1Src (e >>> 50 % 2 ^ 3)).isSome →
          specPcUpdate (e >>> 55 % 2 ^ 3) = none →
          decodeInstruction e = .error .invalidPcUpdate) ∧
        ((specOp1Src (e >>> 50 % 2 ^ 3)).isSome →
          (specPcUpdate (e >>> 55 % 2 ^ 3)).isSome →
          e >>> 53 % 2 ^ 2 = 3 →
          decodeInstruction e = .error .invalidResultLogic) ∧
        ((specOp1Src (e >>> 50 % 2 ^ 3)).isSome →
          (specPcUpdate (e >>> 55 % 2 ^ 3)).isSome →
          e >>> 53 % 2 ^ 2 ≠ 3 →
          specOpcode (e >>> 60 % 2 ^ 3) = none →
          decodeInstruction e = .error .invalidOpcode) ∧
        ((specOp1Src (e >>> 50 % 2 ^ 3)).isSome →
          (specPcUpdate (e >>> 55 % 2 ^ 3)).isSome →
          e >>> 53 % 2 ^ 2 ≠ 3 →
          (specOpcode (e >>> 60 % 2 ^ 3)).isSome →
          e >>> 58 % 2 ^ 2 = 3 →
          decodeInstruction e = .error .invalidApUpdate)) := by
  intro e
  have htb : ∀ k : ℕ, e.testBit k ↔ e / 2 ^ k % 2 = 1 := by
    intro k
    simp [Nat.testBit_to_div_mod]
  by_cases hb : e / 2 ^ 63 % 2 = 0
  · have hnot : ¬ e.testBit 63 := by
      rw [htb 63]
      omega
    obtain ⟨h1, h2, h3, h4, h5, h6, h7⟩ := decode_layout_aux e hb
    simp only [Nat.shiftRight_eq_div_pow]
    refine ⟨⟨fun hc => absurd hc h1, fun hc => absurd hc hnot⟩, ?_,
      fun _ => ⟨h3, h4, h5, h6, h7⟩⟩
    intro i hi
    obtain ⟨o1, o2, o3, o4, o5, o6, o7, o8, o9, o10, o11, o12⟩ := h2 i hi
    refine ⟨o1, o2, o3, ?_, ?_, o6, o7, o8, o9, o10, o11, o12⟩
    · rw [o4]
      by_cases hm : e.testBit 48
      · rw [if_pos hm, if_neg (by have := (htb 48).mp hm; omega)]
      · rw [if_neg hm, if_pos (by
          have h2 : ¬ e / 2 ^ 48 % 2 = 1 :=
            fun hc => hm ((htb 48).mpr hc)
          omega)]
    · rw [o5]
      by_cases hm : e.testBit 49
      · rw [if_pos hm, if_neg (by have := (htb 49).mp hm; omega)]
      · rw [if_neg hm, if_pos (by
          have h2 : ¬ e / 2 ^ 49 % 2 = 1 :=
            fun hc => hm ((htb 49).mpr hc)
          omega)]
  · have hbit : e.testBit 63 := by
      rw [htb 63]
      omega
    have hdec : decodeInstruction e = .error .highBitSetError := by
      unfold decodeInstruction
      rw [if_pos hb]
    refine ⟨⟨fun _ => hbit, fun _ => hdec⟩, ?_,
      fun hcon => absurd hbit hcon⟩
    intro i hi
    rw [hdec] at hi
    simp at hi

/-- C5, witness: the layout applied to a word with only bit 63 set and
to the AssertEq scenario word, whose op1_src bits decode to AP. -/
theorem C5_witness :
    decodeInstruction (2 ^ 63) = .error .highBitSetError ∧
    specOp1Src (encodedC3 >>> 50 % 2 ^ 3) = some Op1Src.AP :=
  ⟨(C5_decode_matches_documented_layout (2 ^ 63)).1.mpr (by decide),
   ((C5_decode_matches_documented_layout encodedC3).2.1 instrC3
      rfl).2.2.2.2.2.1⟩

/-- C10: the Result of every deduction write-back insert in
computeOperands is discarded, so operand resolution never fails with
WriteOnceError or SegmentError - the only errors insert produces - and
it can succeed although a write-back failed: on the single-segment Call
scenario both the op0 and the dst write-backs target the unallocated
segment 1 and fail with SegmentError, yet computeOperands returns
successfully and the memory is unchanged. -/
theorem C10_write_back_failures_ignored :
    (∀ (ctx : RunContext) (mem : Memory) (instruction : Instruction),
        computeOperands ctx mem instruction ≠ .error .writeOnceError ∧
        computeOperands ctx mem instruction ≠ .error .segmentError) ∧
    computeOperands ctxC1 memC10 instrC10 = .ok (opsC10, memC10) ∧
    memC10.insert ⟨1, 1⟩ (.rel ⟨0, 2⟩) = .error .segmentError ∧
    memC10.insert ⟨1, 0⟩ (.rel ⟨1, 0⟩) = .error .segmentError := by
  refine ⟨?_, rfl, rfl, rfl⟩
  intro ctx mem instruction
  constructor
  · intro h
    exact (notInsertErr_computeOperands _ _ _ _ h).1 rfl
  · intro h
    exact (notInsertErr_computeOperands _ _ _ _ h).2 rfl

/-- C10, witness: the universal part applied to the concrete Call
scenario. -/
theorem C10_witness :
    computeOperands ctxC1 memC10 instrC10 ≠ .error .writeOnceError :=
  (C10_write_back_failures_ignored.1 ctxC1 memC10 instrC10).1

end CairoVM
